import Mathlib

/-!
Shallow embedding of the CloudKommand ALB extension handlers
(src/listener/lambda_function.py, src/rule/lambda_function.py,
src/load_balancer/lambda_function.py).

Each handler is a straight-line Python function built on the CloudKommand
`ExtensionHandler` (`eh`) from the external `extutil` module (not part of
this repository's src/).  The handlers enqueue named operations with
`eh.add_op`, declare permanent errors with `eh.perm_error`, and declare
retries with `eh.retry_error`.  We model the remote AWS API results as
explicit inputs (a `Lookup`/`FetchRes` value per call made), so every
modelled function is a pure function from its Python arguments plus the
remote responses to the list of enqueued operations and the declared
outcome.

Python-value conventions used throughout:
  * a Python `None`-able value is an `Option`;
  * a dict is an association list `List (String × Val)` (Python dicts have
    unique keys; hypotheses `Nodup` are added where a theorem needs it);
  * Python truthiness of strings/ints/lists is modelled explicitly
    (`strTruthy`, `pvalTruthy`, `lbvalTruthy`);
  * a Python statement that raises an exception not caught locally is an
    `Except`-error / an explicit crash outcome.
-/

namespace ALB

/-- Payload attached to an enqueued operation by `eh.add_op(name, payload)`. -/
inductive Payload
  | noPayload
  | keys (ks : List String)
  | tagMap (m : List (String × String))
  deriving DecidableEq, Repr

/-- One enqueued operation: its string name and optional payload. -/
structure Op where
  name : String
  payload : Payload
  deriving DecidableEq, Repr

/-- Outcome declared by a handler phase: nothing (`ok`), a permanent error
(`eh.perm_error(msg, progress)`), a retry (`eh.retry_error(..., progress,
callback_sec)`), delegation to `handle_common_errors` from extutil
(`commonErrors prefixMsg progress`), or an uncaught Python exception that
escapes the function (`internalCrash`). -/
inductive Outcome
  | ok
  | permError (msg : String) (progress : Nat)
  | retryError (progress : Nat) (callbackSec : Option Nat)
  | commonErrors (prefixMsg : String) (progress : Nat)
  | internalCrash (msg : String)
  deriving DecidableEq, Repr

/-- Result of one modelled phase: the operations it enqueued (in order) and
the outcome it declared. -/
structure PhaseRes where
  ops : List Op
  outcome : Outcome
  deriving DecidableEq, Repr

/-- Result of a describe call: a first element, an empty result list, the
resource-specific NotFound exception, or another botocore ClientError. -/
inductive Lookup (α : Type)
  | found (x : α)
  | emptyList
  | notFoundExc
  | clientError
  deriving DecidableEq, Repr

/-- Result of a secondary fetch (describe_tags / describe_..._attributes):
data, the resource-specific NotFound exception (caught locally, `pass`), or
another ClientError (propagates to the enclosing handler). -/
inductive FetchRes (α : Type)
  | got (x : α)
  | resourceNotFound
  | otherError
  deriving DecidableEq, Repr

/-- A scalar Python value stored in a props dict: int, string or None. -/
inductive PVal
  | pint (n : Int)
  | pstr (s : String)
  | pnone
  deriving DecidableEq, Repr

/-- A value stored in the load-balancer attributes/props dicts: a string, a
list of strings (subnets / security groups), or a tag list. -/
inductive LBVal
  | vstr (s : String)
  | vlist (l : List String)
  | vtags (l : List (String × String))
  deriving DecidableEq, Repr

/-- Python truthiness of an optional string (`None` and `""` are falsy). -/
def strTruthy : Option String → Bool
  | none => false
  | some s => !(s == "")

/-- Python truthiness of a scalar `PVal`. -/
def pvalTruthy : PVal → Bool
  | .pint n => !(n == 0)
  | .pstr s => !(s == "")
  | .pnone => false

/-- Python truthiness of an `LBVal`. -/
def lbvalTruthy : LBVal → Bool
  | .vstr s => !(s == "")
  | .vlist l => !l.isEmpty
  | .vtags l => !l.isEmpty

/-- Python `x or d` for an optional string input (falsy falls through). -/
def orElseStr (x : Option String) (d : String) : String :=
  match x with
  | some s => if s == "" then d else s
  | none => d

/-- Python `x or d` for an optional int input (falsy falls through). -/
def orElseInt (x : Option Int) (d : Int) : Int :=
  match x with
  | some n => if n == 0 then d else n
  | none => d

/-- Embed an optional string into a scalar `PVal` (Python `None` / `str`). -/
def toPVal : Option String → PVal
  | none => .pnone
  | some s => .pstr s

/-- Python `str(x)` of an optional string (`str(None) = "None"`). -/
def pyStrOpt : Option String → String
  | none => "None"
  | some s => s

/-- Python dict equality of two association lists (same keys, same values).
Matches `d1 == d2` for dicts with unique keys. -/
def dictEq (a b : List (String × String)) : Bool :=
  (a.map Prod.fst ++ b.map Prod.fst).all (fun k => a.lookup k == b.lookup k)

/-- Tag keys slated for removal:
`[k for k in current_tags.keys() if k not in formatted_tags]`. -/
def removeTagsCalc (current desired : List (String × String)) : List String :=
  (current.map Prod.fst).filter (fun k => decide (k ∉ desired.map Prod.fst))

/-- Tag pairs slated for addition:
`{k:v for k,v in formatted_tags.items() if v != current_tags.get(k)}`. -/
def addTagsCalc (current desired : List (String × String)) : List (String × String) :=
  desired.filter (fun p => decide (current.lookup p.1 ≠ some p.2))

/-- The "no tags declared" branch: remove every current tag key if any. -/
def tagRemoveStragglers (current : List (String × String)) : List Op :=
  if current.isEmpty then [] else [⟨"remove_tags", Payload.keys (current.map Prod.fst)⟩]

/-- The tag-reconciliation block shared verbatim by all three handlers:
given `attributes.get("Tags")` (as the formatted desired tag dict, `none`
when the Tags key is absent/falsy) and the current tags fetched from the
API, produce the `remove_tags` / `set_tags` operations enqueued. -/
def tagDiffOps (desiredTags : Option (List (String × String)))
    (currentTags : List (String × String)) : List Op :=
  match desiredTags with
  | some ts =>
      if ts.isEmpty then tagRemoveStragglers currentTags
      else if dictEq ts currentTags then []
      else
        (if (removeTagsCalc currentTags ts).isEmpty then []
         else [⟨"remove_tags", Payload.keys (removeTagsCalc currentTags ts)⟩]) ++
        (if (addTagsCalc currentTags ts).isEmpty then []
         else [⟨"set_tags", Payload.tagMap (addTagsCalc currentTags ts)⟩])
  | none => tagRemoveStragglers currentTags

/-- Desired tags and current tags agree (so the tag block is a no-op). -/
def tagsMatch (desiredTags : Option (List (String × String)))
    (currentTags : List (String × String)) : Prop :=
  (match desiredTags with
   | some ts => dictEq ts currentTags
   | none => currentTags.isEmpty) = true

/-! ## Listener handler (src/listener/lambda_function.py) -/

/-- The listener `component_def` fields read by the handler. -/
structure ListenerCdef where
  load_balancer_arn : Option String
  protocol : Option String
  port : Option Int
  ssl_policy : Option String
  certificate_arn : Option String
  action_type : Option String
  target_group_arn : Option String
  tags : Option (List (String × String))
  deriving DecidableEq, Repr

/-- The listener `attributes` dict without its `Tags` entry (the shape both
sides of the `comparable_attributes != current_attributes` check take).
`none` in an `Option` field means the dict key is absent (dropped by
`remove_none_attributes`); `DefaultActions` is a one-element list of a dict
with keys `Type` and `TargetGroupArn` on both sides, flattened here into
the two action fields. -/
structure ListenerApiAttrs where
  loadBalancerArn : Option String
  protocol : Option String
  port : Option Int
  sslPolicy : Option String
  certificates : Option String
  actionType : Option String
  targetGroupArn : Option String
  deriving DecidableEq, Repr

/-- The fields of a live listener object returned by `describe_listeners`. -/
structure LiveListener where
  listenerArn : String
  loadBalancerArn : Option String
  port : Option Int
  protocol : Option String
  actionType : Option String
  targetGroupArn : Option String
  sslPolicy : Option String
  certificateArn : Option String
  deriving DecidableEq, Repr

/-- `attributes` built in the listener `lambda_handler` (lines 95-106),
minus the `Tags` entry.  Defaults: protocol `HTTPS`, port `443`, ssl policy
`ELBSecurityPolicy-TLS13-1-2-2021-06`, action type `forward`; the
`Certificates` key exists only when `certificate_arn` is truthy. -/
def listenerAttributes (c : ListenerCdef) : ListenerApiAttrs :=
  { loadBalancerArn := c.load_balancer_arn
    protocol := some (orElseStr c.protocol "HTTPS")
    port := some (orElseInt c.port 443)
    sslPolicy := some (orElseStr c.ssl_policy "ELBSecurityPolicy-TLS13-1-2-2021-06")
    certificates := if strTruthy c.certificate_arn then c.certificate_arn else none
    actionType := some (orElseStr c.action_type "forward")
    targetGroupArn := c.target_group_arn }

/-- The `Tags` entry of the listener `attributes` dict:
`[{"Key": k, "Value": v} ...] if tags else None`. -/
def listenerTagsAttr (c : ListenerCdef) : Option (List (String × String)) :=
  match c.tags with
  | some ts => if ts.isEmpty then none else some ts
  | none => none

/-- `current_attributes` rebuilt in `get_listener` (lines 219-230) from the
live listener.  Note `Protocol` and `SslPolicy` take the `str(...)` branch
in both arms of their conditional, so an absent live value becomes the
string `"None"`; `Port` and `LoadBalancerArn` are dropped when `None`. -/
def listenerCurrentAttrs (lv : LiveListener) : ListenerApiAttrs :=
  { loadBalancerArn := lv.loadBalancerArn
    protocol := some (pyStrOpt lv.protocol)
    port := lv.port
    sslPolicy := some (pyStrOpt lv.sslPolicy)
    certificates := if strTruthy lv.certificateArn then lv.certificateArn else none
    actionType := lv.actionType
    targetGroupArn := lv.targetGroupArn }

/-- The found branch of `get_listener` (lines 200-270): enqueue
`update_listener` when the comparable attributes differ, then run the tag
block against the `describe_tags` result. -/
def getListenerFoundRes (d : ListenerApiAttrs) (dt : Option (List (String × String)))
    (lv : LiveListener) (tagsRes : FetchRes (List (String × String))) : PhaseRes :=
  let upd := if d ≠ listenerCurrentAttrs lv then [⟨"update_listener", Payload.noPayload⟩] else []
  match tagsRes with
  | .got ct => ⟨upd ++ tagDiffOps dt ct, .ok⟩
  | .resourceNotFound => ⟨upd, .ok⟩
  | .otherError => ⟨upd, .retryError 10 none⟩

/-- The whole `get_listener` operation (lines 187-289): with no previous
listener ARN, or a not-found/empty describe result, enqueue
`create_listener`; other ClientErrors retry with progress 10. -/
def getListenerRes (prevArn : Option String) (lk : Lookup LiveListener)
    (d : ListenerApiAttrs) (dt : Option (List (String × String)))
    (tagsRes : FetchRes (List (String × String))) : PhaseRes :=
  if !(strTruthy prevArn) then ⟨[⟨"create_listener", Payload.noPayload⟩], .ok⟩
  else match lk with
  | .found lv => getListenerFoundRes d dt lv tagsRes
  | .emptyList => ⟨[⟨"create_listener", Payload.noPayload⟩], .ok⟩
  | .notFoundExc => ⟨[⟨"create_listener", Payload.noPayload⟩], .ok⟩
  | .clientError => ⟨[], .retryError 10 none⟩

/-- Sequential `try: a = props[k1]; b = props[k2] except: pass` reads: if
the props dict (or the first key) is missing, both stay `None`; if only the
second key is missing, the first read has already been assigned. -/
def tryTwo (props : Option (List (String × PVal))) (k1 k2 : String) :
    Option PVal × Option PVal :=
  match props with
  | none => (none, none)
  | some ps =>
    match ps.lookup k1 with
    | none => (none, none)
    | some v1 => (some v1, ps.lookup k2)

/-- Error message of the listener immutable-field guard (line 132). -/
def listenerNonEditableMsg : String :=
  "You may not edit the Load Balancer ARN or the port of an existing listener. Please create a new component to get the desired configuration."

/-- The upsert starting point in the listener `lambda_handler` (lines
114-134): read `prev_state["props"]["load_balancer_arn"]` and `["port"]`,
enqueue `get_listener`, and declare a permanent error (progress 10) when a
truthy old value differs from the newly declared one. -/
def listenerUpsertStart (props : Option (List (String × PVal)))
    (load_balancer_arn : Option String) (port : Int) : PhaseRes :=
  let old := tryTwo props "load_balancer_arn" "port"
  let guard :=
    (match old.1 with
     | some v => pvalTruthy v && !(v == toPVal load_balancer_arn)
     | none => false) ||
    (match old.2 with
     | some v => pvalTruthy v && !(v == PVal.pint port)
     | none => false)
  if guard then ⟨[⟨"get_listener", Payload.noPayload⟩], .permError listenerNonEditableMsg 10⟩
  else ⟨[⟨"get_listener", Payload.noPayload⟩], .ok⟩

/-! ## Rule handler (src/rule/lambda_function.py) -/

/-- The dynamically-typed `values` entry of a rule condition: a list of
strings (most condition fields), a list of dicts (user-side query-string
values), a Key/Value object list (provider-side query-string values), or
Python `None`. -/
inductive CVal
  | strs (l : List String)
  | dicts (l : List (List (String × String)))
  | kvpairs (l : List (String × String))
  | noneV
  deriving DecidableEq, Repr

/-- A condition in the user (component_def) shape:
`{"field": ..., "values": ..., "http_header_name": ...}`; missing dict
keys read as `None` via `.get`. -/
structure UCond where
  field : Option String
  values : CVal
  http_header_name : Option String
  deriving DecidableEq, Repr

/-- A condition in the provider shape.  In the Python dicts the values sit
inside a per-field config dict (`HttpHeaderConfig`, `HostHeaderConfig`,
`QueryStringConfig`, ...); since both translation directions only ever
read or write the config dict named by `Field`, we flatten the condition
to its `Field`, the optional `HttpHeaderName`, and the config `Values`.
Every value produced by `conditionsToFormatted` (both comparison sides in
`get_rule`) carries exactly this information, so equality of `FCond`
coincides with Python dict equality there. -/
structure FCond where
  Field : Option String
  HttpHeaderName : Option String
  Values : CVal
  deriving DecidableEq, Repr

/-- `expand_list_dict_to_key_value_list_obj` (lines 56-63): each dict in
the list contributes one `{"Key": k, "Value": v}` per item (the f-string
casts are the identity on our string-valued model). -/
def expandListDict (l : List (List (String × String))) : List (String × String) :=
  l.flatten

/-- `key_value_list_obj_to_compressed_list_dict` (lines 73-78): a Key/Value
object list becomes a list of single-entry dicts. -/
def keyValueListToCompressedListDict (l : List (String × String)) :
    List (List (String × String)) :=
  l.map (fun p => [(p.1, p.2)])

/-- One iteration of `conditions_to_formatted_conditions` (lines 87-137):
a known field is translated (query-string expands its list-of-dict values,
raising if the values are not such a list), an unknown field is dropped
(`pass`). -/
def condToFormatted (c : UCond) : Except Unit (Option FCond) :=
  match c.field with
  | some "http-header" => .ok (some ⟨c.field, c.http_header_name, c.values⟩)
  | some "http-request-method" => .ok (some ⟨c.field, none, c.values⟩)
  | some "host-header" => .ok (some ⟨c.field, none, c.values⟩)
  | some "path-pattern" => .ok (some ⟨c.field, none, c.values⟩)
  | some "query-string" =>
      match c.values with
      | .dicts l => .ok (some ⟨c.field, none, .kvpairs (expandListDict l)⟩)
      | _ => .error ()
  | some "source-ip" => .ok (some ⟨c.field, none, c.values⟩)
  | _ => .ok none

/-- `conditions_to_formatted_conditions` over a list, left to right. -/
def conditionsToFormatted : List UCond → Except Unit (List FCond)
  | [] => .ok []
  | c :: rest => do
      let o ← condToFormatted c
      let r ← conditionsToFormatted rest
      .ok (match o with | some f => f :: r | none => r)

/-- One iteration of `formatted_conditions_to_conditions` (lines 139-176);
query-string compresses the Key/Value list back into single-entry dicts
(raising when the `Values` are not such a list), an unknown field is
dropped. -/
def formattedToCond (f : FCond) : Except Unit (Option UCond) :=
  match f.Field with
  | some "http-header" => .ok (some ⟨f.Field, f.Values, f.HttpHeaderName⟩)
  | some "http-request-method" => .ok (some ⟨f.Field, f.Values, none⟩)
  | some "host-header" => .ok (some ⟨f.Field, f.Values, none⟩)
  | some "path-pattern" => .ok (some ⟨f.Field, f.Values, none⟩)
  | some "query-string" =>
      match f.Values with
      | .kvpairs l => .ok (some ⟨f.Field, .dicts (keyValueListToCompressedListDict l), none⟩)
      | _ => .error ()
  | some "source-ip" => .ok (some ⟨f.Field, f.Values, none⟩)
  | _ => .ok none

/-- `formatted_conditions_to_conditions` over a list, left to right. -/
def formattedToConditions : List FCond → Except Unit (List UCond)
  | [] => .ok []
  | f :: rest => do
      let o ← formattedToCond f
      let r ← formattedToConditions rest
      .ok (match o with | some c => c :: r | none => r)

/-- The rule `component_def` fields read by the handler. -/
structure RuleCdef where
  listener_arn : Option String
  target_group_arn : Option String
  conditions : List UCond
  priority : Option Int
  action_type : Option String
  tags : Option (List (String × String))
  deriving DecidableEq, Repr

/-- The rule `attributes` dict without its `Tags` entry.  `Priority` is a
`PVal` because the current side mixes `int(...)` and `str(...)` results;
`Actions` is flattened into its `Type`/`TargetGroupArn` fields like the
listener's `DefaultActions`. -/
structure RuleApiAttrs where
  ListenerArn : Option String
  Conditions : Option (List FCond)
  Priority : Option PVal
  ActionType : Option String
  ActionTGA : Option String
  deriving DecidableEq, Repr

/-- A live rule object returned by `describe_rules` (AWS reports `Priority`
as a string). -/
structure LiveRule where
  RuleArn : String
  Priority : Option String
  Conditions : List FCond
  ActionType : Option String
  ActionTGA : Option String
  deriving DecidableEq, Repr

/-- `attributes` built in the rule `lambda_handler` (lines 220-230), minus
`Tags`: the `Conditions` key is dropped when the formatted list is empty,
`Priority` is dropped when `priority` is `None` (an `int(...)` of an int is
the identity). -/
def ruleAttributes (c : RuleCdef) : Except Unit RuleApiAttrs := do
  let fc ← conditionsToFormatted c.conditions
  .ok { ListenerArn := c.listener_arn
        Conditions := if fc.isEmpty then none else some fc
        Priority := c.priority.map PVal.pint
        ActionType := some (orElseStr c.action_type "forward")
        ActionTGA := c.target_group_arn }

/-- The `Tags` entry of the rule `attributes` dict
(`expand_dict_to_key_value_list_obj(tags) if tags else None`). -/
def ruleTagsAttr (c : RuleCdef) : Option (List (String × String)) :=
  match c.tags with
  | some ts => if ts.isEmpty then none else some ts
  | none => none

/-- Accumulator loop of the decimal parser modelling Python `int(...)`. -/
def digitsToNat (cs : List Char) (acc : Nat) : Option Nat :=
  match cs with
  | [] => some acc
  | ch :: rest => if ch.isDigit then digitsToNat rest (acc * 10 + (ch.toNat - 48)) else none

/-- Python `int(s)` on a decimal string literal (optional leading minus);
any other string raises `ValueError` (`none`). -/
def pyIntParse (s : String) : Option Int :=
  match s.data with
  | [] => none
  | '-' :: rest =>
      if rest.isEmpty then none
      else (digitsToNat rest 0).map (fun n => -(n : Int))
  | cs => (digitsToNat cs 0).map (fun n => (n : Int))

/-- The `Priority` entry of `current_attributes` in `get_rule` (line 346):
`int(p) if p else str(p)` over the live string priority.  A falsy value
(`None` or `""`) goes through `str`; a truthy non-numeric string makes
`int(...)` raise `ValueError`, which escapes `get_rule`. -/
def currentPriorityVal (p : Option String) : Except Unit PVal :=
  match p with
  | none => .ok (.pstr "None")
  | some s =>
      if s == "" then .ok (.pstr "")
      else match pyIntParse s with
      | some n => .ok (.pint n)
      | none => .error ()

/-- `current_attributes` rebuilt in `get_rule` (lines 329-352): the live
conditions are round-tripped through `formatted_conditions_to_conditions`
and back, `ListenerArn` is taken from `prev_state` (not from the live
rule), and the `Conditions` key is dropped when the round-tripped list is
empty. -/
def ruleCurrentAttrs (prevListenerArn : Option String) (rv : LiveRule) :
    Except Unit RuleApiAttrs := do
  let reform ← formattedToConditions rv.Conditions
  let prio ← currentPriorityVal rv.Priority
  let conds ←
    if reform.isEmpty then pure (none : Option (List FCond))
    else do
      let f ← conditionsToFormatted reform
      pure (some f)
  .ok { ListenerArn := prevListenerArn
        Conditions := conds
        Priority := some prio
        ActionType := rv.ActionType
        ActionTGA := rv.ActionTGA }

/-- Projection used on both sides of the rule comparison (lines 354-356):
every attribute except `Tags` and `Priority`. -/
def ruleComparable (a : RuleApiAttrs) :
    Option String × Option (List FCond) × Option String × Option String :=
  (a.ListenerArn, a.Conditions, a.ActionType, a.ActionTGA)

/-- The found branch of `get_rule` (lines 323-398): enqueue `update_rule`
when the comparable attributes differ, `update_rule_priority` when the
`Priority` entries differ, then the tag block. -/
def getRuleFoundRes (d : RuleApiAttrs) (dt : Option (List (String × String)))
    (prevListenerArn : Option String) (rv : LiveRule)
    (tagsRes : FetchRes (List (String × String))) : Except Unit PhaseRes := do
  let cur ← ruleCurrentAttrs prevListenerArn rv
  let upd := if ruleComparable d ≠ ruleComparable cur then [⟨"update_rule", Payload.noPayload⟩] else []
  let pr := if d.Priority ≠ cur.Priority then [⟨"update_rule_priority", Payload.noPayload⟩] else []
  match tagsRes with
  | .got ct => .ok ⟨upd ++ pr ++ tagDiffOps dt ct, .ok⟩
  | .resourceNotFound => .ok ⟨upd ++ pr, .ok⟩
  | .otherError => .ok ⟨upd ++ pr, .retryError 10 none⟩

/-- The whole `get_rule` operation (lines 309-417). -/
def getRuleRes (prevArn prevListenerArn : Option String) (lk : Lookup LiveRule)
    (d : RuleApiAttrs) (dt : Option (List (String × String)))
    (tagsRes : FetchRes (List (String × String))) : Except Unit PhaseRes :=
  if !(strTruthy prevArn) then .ok ⟨[⟨"create_rule", Payload.noPayload⟩], .ok⟩
  else match lk with
  | .found rv => getRuleFoundRes d dt prevListenerArn rv tagsRes
  | .emptyList => .ok ⟨[⟨"create_rule", Payload.noPayload⟩], .ok⟩
  | .notFoundExc => .ok ⟨[⟨"create_rule", Payload.noPayload⟩], .ok⟩
  | .clientError => .ok ⟨[], .retryError 10 none⟩

/-- Error message of the rule immutable-field guard (line 253). -/
def ruleNonEditableMsg : String :=
  "You may not edit the Listener ARN of an existing Listener Rule. Please create a new component to get the desired configuration."

/-- The upsert starting point in the rule `lambda_handler` (lines 238-255):
`old_listener_arn` is read from the props key `"old_listener_arn"` (a key
this component never writes), and the guard condition compares
`old_listener_arn != old_listener_arn` — the declared listener ARN is never
consulted.  Transcribed faithfully. -/
def ruleUpsertStart (props : Option (List (String × PVal)))
    (listener_arn : Option String) : PhaseRes :=
  let old : Option PVal :=
    match props with
    | none => none
    | some ps => ps.lookup "old_listener_arn"
  let _unused := listener_arn
  let guard :=
    match old with
    | some v => pvalTruthy v && !(v == v)
    | none => false
  if guard then ⟨[⟨"get_rule", Payload.noPayload⟩], .permError ruleNonEditableMsg 10⟩
  else ⟨[⟨"get_rule", Payload.noPayload⟩], .ok⟩

/-! ## Load balancer handler (src/load_balancer/lambda_function.py) -/

/-- The load-balancer `component_def` fields feeding the `attributes` dict. -/
structure LBCdef where
  subnets : Option (List String)
  security_groups : Option (List String)
  scheme : Option String
  tags : Option (List (String × String))
  load_balancer_type : Option String
  ip_address_type : Option String
  deriving DecidableEq, Repr

/-- The fields of a live load balancer used by the handler's diff logic. -/
structure LiveLB where
  loadBalancerArn : String
  ipAddressType : Option String
  deriving DecidableEq, Repr

/-- The `attributes` dict built in the load-balancer `lambda_handler`
(lines 154-164), as an association list in source order.  Keys are the
provider-style capitalized names; `remove_none_attributes` drops the
`Subnets`/`SecurityGroups` keys when absent and the `Tags` key when the
tags dict is falsy.  Defaults: scheme `internal`, type `application`, ip
address type `ipv4`. -/
def lbAttributes (name : String) (c : LBCdef) : List (String × LBVal) :=
  [("Name", LBVal.vstr name)]
  ++ (match c.subnets with
      | some l => [("Subnets", LBVal.vlist l)]
      | none => [])
  ++ (match c.security_groups with
      | some l => [("SecurityGroups", LBVal.vlist l)]
      | none => [])
  ++ [("Scheme", LBVal.vstr (orElseStr c.scheme "internal"))]
  ++ (match c.tags with
      | some ts => if ts.isEmpty then [] else [("Tags", LBVal.vtags ts)]
      | none => [])
  ++ [("Type", LBVal.vstr (orElseStr c.load_balancer_type "application"))]
  ++ [("IpAddressType", LBVal.vstr (orElseStr c.ip_address_type "ipv4"))]

/-- `default_special_attributes` (lines 135-151) after
`remove_none_attributes` (the `access_logs.s3.bucket` and
`access_logs.s3.prefix` entries are `None` and therefore absent). -/
def defaultSpecialAttributes : List (String × String) :=
  [("deletion_protection.enabled", "false"),
   ("load_balancing.cross_zone.enabled", "true"),
   ("access_logs.s3.enabled", "false"),
   ("ipv6.deny_all_igw_traffic", "false"),
   ("idle_timeout.timeout_seconds", "60"),
   ("routing.http.desync_mitigation_mode", "defensive"),
   ("routing.http.drop_invalid_header_fields.enabled", "false"),
   ("routing.http.preserve_host_header.enabled", "false"),
   ("routing.http.x_amzn_tls_version_and_cipher_suite.enabled", "false"),
   ("routing.http.xff_client_port.enabled", "false"),
   ("routing.http.xff_header_processing.mode", "append"),
   ("routing.http2.enabled", "true"),
   ("waf.fail_open.enabled", "false")]

/-- Python `a or b` over optional strings (a falsy `a`, i.e. `None` or
`""`, falls through to `b`). -/
def pyOr (a b : Option String) : Option String :=
  match a with
  | some s => if s == "" then b else some s
  | none => b

/-- The merged target of `update_load_balancer_special_attributes` (lines
317 and 431): `remove_none_attributes({key: (special_attributes.get(key) or
default_special_attributes.get(key)) for key in current})` — keys with
neither a declared value nor a default are dropped. -/
def computeUpdateSpecial (declared defaults current : List (String × String)) :
    List (String × String) :=
  current.filterMap (fun p =>
    (pyOr (declared.lookup p.1) (defaults.lookup p.1)).map (fun v => (p.1, v)))

/-- The payload sent by `reset_load_balancer_special_attributes` (line
736): `remove_none_attributes({key: defaults.get(key) for key in
current})`. -/
def resetSpecialPayload (defaults current : List (String × String)) :
    List (String × String) :=
  current.filterMap (fun p => (defaults.lookup p.1).map (fun v => (p.1, v)))

/-- `current_special_attributes` after the `ipv6.deny_all_igw_traffic` pop
for ipv4 load balancers (lines 311-313 and 425-427). -/
def currentSpecialAttrs (raw : List (String × String)) (ipAddressType : Option String) :
    List (String × String) :=
  if ipAddressType == some "ipv4" then raw.filter (fun p => !(p.1 == "ipv6.deny_all_igw_traffic"))
  else raw

/-- The special-attributes decision in `get_load_balancer` (lines 315-322):
one update op with the merged target when any special attribute was
declared, otherwise one reset op (payload kept in `eh.state`). -/
def specialAttrOpsGet (declared defaults current : List (String × String)) : List Op :=
  if declared.isEmpty then [⟨"reset_load_balancer_special_attributes", Payload.noPayload⟩]
  else [⟨"update_load_balancer_special_attributes",
         Payload.tagMap (computeUpdateSpecial declared defaults current)⟩]

/-- The same decision in `create_load_balancer` (lines 429-437), which
passes the current attributes as the reset op's payload. -/
def specialAttrOpsCreate (declared defaults current : List (String × String)) : List Op :=
  if declared.isEmpty then [⟨"reset_load_balancer_special_attributes", Payload.tagMap current⟩]
  else [⟨"update_load_balancer_special_attributes",
         Payload.tagMap (computeUpdateSpecial declared defaults current)⟩]

/-- `attributes.get("Tags")` truthiness as used by the tag block: only a
non-empty tag-list value enters the diff branch. -/
def lbGetTags (attrs : List (String × LBVal)) : Option (List (String × String)) :=
  match attrs.lookup "Tags" with
  | some (.vtags l) => if l.isEmpty then none else some l
  | _ => none

/-- The three divergence checks of `get_load_balancer` (lines 294-303) and
`create_load_balancer` (lines 409-418), transcribed with Python's
short-circuit evaluation: the subnets check's second disjunct evaluates
`attributes["load_balancer_type"]`, a key the attributes dict does not
have (its key is `Type`), raising `KeyError` — reported in the second
component.  Ops enqueued before the raise are kept. -/
def lbDivergenceOps (attrs prev : List (String × LBVal)) : List Op × Option String :=
  let ipDiff := !(attrs.lookup "ip_address_type" == prev.lookup "ip_address_type")
  let ipOps := if ipDiff then [⟨"set_ip_address_type", Payload.noPayload⟩] else []
  let sgOps :=
    if !(attrs.lookup "security_groups" == prev.lookup "security_groups")
    then [⟨"set_security_groups", Payload.noPayload⟩] else []
  if !(attrs.lookup "subnets" == prev.lookup "subnets") then
    (ipOps ++ [⟨"set_subnets", Payload.noPayload⟩] ++ sgOps, none)
  else if ipDiff then
    match attrs.lookup "load_balancer_type" with
    | none => (ipOps, some "KeyError: load_balancer_type")
    | some v =>
        (ipOps ++ (if v == LBVal.vstr "network" then [⟨"set_subnets", Payload.noPayload⟩] else [])
          ++ sgOps, none)
  else (ipOps ++ sgOps, none)

/-- The name guard at the top of `get_load_balancer` (lines 260-264). -/
def lbNameGuardFires (name : String) (prevProps : Option (List (String × LBVal))) : Bool :=
  match prevProps with
  | none => false
  | some ps =>
    match ps.lookup "name" with
    | some v => lbvalTruthy v && !(LBVal.vstr name == v)
    | none => false

/-- The whole `get_load_balancer` operation (lines 256-378).  `specialRes`
is the `describe_load_balancer_attributes` result and `tagsRes` the
`describe_tags` result; a locally-caught NotFound skips the block, another
ClientError escapes to the outer handler (retry, progress 10), and the
`KeyError` of the divergence checks escapes the function entirely. -/
def getLoadBalancerRes (name : String) (attrs : List (String × LBVal))
    (declaredSpecial defaults : List (String × String))
    (prevProps : Option (List (String × LBVal))) (lk : Lookup LiveLB)
    (specialRes : FetchRes (List (String × String)))
    (tagsRes : FetchRes (List (String × String))) : PhaseRes :=
  if lbNameGuardFires name prevProps then ⟨[], .permError "Cannot Change Load Balancer Name" 0⟩
  else match lk with
  | .found lv =>
    match lbDivergenceOps attrs (prevProps.getD []) with
    | (divOps, some e) => ⟨divOps, .internalCrash e⟩
    | (divOps, none) =>
      match specialRes with
      | .otherError => ⟨divOps, .retryError 10 none⟩
      | .resourceNotFound =>
        match tagsRes with
        | .otherError => ⟨divOps, .retryError 10 none⟩
        | .resourceNotFound => ⟨divOps, .ok⟩
        | .got ct => ⟨divOps ++ tagDiffOps (lbGetTags attrs) ct, .ok⟩
      | .got raw =>
        let spOps := specialAttrOpsGet declaredSpecial defaults
          (currentSpecialAttrs raw lv.ipAddressType)
        match tagsRes with
        | .otherError => ⟨divOps ++ spOps, .retryError 10 none⟩
        | .resourceNotFound => ⟨divOps ++ spOps, .ok⟩
        | .got ct => ⟨divOps ++ spOps ++ tagDiffOps (lbGetTags attrs) ct, .ok⟩
  | .emptyList => ⟨[], .ok⟩
  | .notFoundExc => ⟨[⟨"create_load_balancer", Payload.noPayload⟩], .ok⟩
  | .clientError => ⟨[], .retryError 10 none⟩

/-- The follow-up section of `create_load_balancer`'s success path (lines
404-477): enqueue the convergence poll, then the same divergence, special
attribute and tag blocks; an escaped ClientError from the inner describes
reaches the create function's own catch-all (`handle_common_errors`,
progress 20), while the `KeyError` escapes everything. -/
def createLBFollowups (attrs : List (String × LBVal))
    (prevProps : List (String × LBVal))
    (declaredSpecial defaults : List (String × String)) (lv : LiveLB)
    (specialRes : FetchRes (List (String × String)))
    (tagsRes : FetchRes (List (String × String))) : PhaseRes :=
  let base : List Op := [⟨"check_load_balancer_create_complete", Payload.noPayload⟩]
  match lbDivergenceOps attrs prevProps with
  | (divOps, some e) => ⟨base ++ divOps, .internalCrash e⟩
  | (divOps, none) =>
    match specialRes with
    | .otherError => ⟨base ++ divOps, .commonErrors "Error Creating Load Balancer" 20⟩
    | .resourceNotFound =>
      match tagsRes with
      | .otherError => ⟨base ++ divOps, .commonErrors "Error Creating Load Balancer" 20⟩
      | .resourceNotFound => ⟨base ++ divOps, .ok⟩
      | .got ct => ⟨base ++ divOps ++ tagDiffOps (lbGetTags attrs) ct, .ok⟩
    | .got raw =>
      let spOps := specialAttrOpsCreate declaredSpecial defaults
        (currentSpecialAttrs raw lv.ipAddressType)
      match tagsRes with
      | .otherError => ⟨base ++ divOps ++ spOps, .commonErrors "Error Creating Load Balancer" 20⟩
      | .resourceNotFound => ⟨base ++ divOps ++ spOps, .ok⟩
      | .got ct => ⟨base ++ divOps ++ spOps ++ tagDiffOps (lbGetTags attrs) ct, .ok⟩

/-- Sequential `try` reads of `name`, `scheme`, `load_balancer_type` from
`prev_state["props"]` (lines 179-185), like `tryTwo`. -/
def tryThree (props : Option (List (String × LBVal))) (k1 k2 k3 : String) :
    Option LBVal × Option LBVal × Option LBVal :=
  match props with
  | none => (none, none, none)
  | some ps =>
    match ps.lookup k1 with
    | none => (none, none, none)
    | some v1 =>
      match ps.lookup k2 with
      | none => (some v1, none, none)
      | some v2 =>
        match ps.lookup k3 with
        | none => (some v1, some v2, none)
        | some v3 => (some v1, some v2, some v3)

/-- Error message of the load-balancer immutable-field guard (line 196). -/
def lbNonEditableMsg : String :=
  "You may not edit the name, scheme, or load balancer type of an existing load balancer. Please create a new component to get the desired configuration."

/-- The upsert starting point in the load-balancer `lambda_handler` (lines
172-198): enqueue `get_load_balancer` and permanently fail (progress 10)
when a truthy recorded name, scheme or type differs from the new value. -/
def lbUpsertStart (props : Option (List (String × LBVal)))
    (name scheme load_balancer_type : String) : PhaseRes :=
  let old := tryThree props "name" "scheme" "load_balancer_type"
  let guard :=
    (match old.1 with
     | some v => lbvalTruthy v && !(v == LBVal.vstr name)
     | none => false) ||
    (match old.2.1 with
     | some v => lbvalTruthy v && !(v == LBVal.vstr scheme)
     | none => false) ||
    (match old.2.2 with
     | some v => lbvalTruthy v && !(v == LBVal.vstr load_balancer_type)
     | none => false)
  if guard then ⟨[⟨"get_load_balancer", Payload.noPayload⟩], .permError lbNonEditableMsg 10⟩
  else ⟨[⟨"get_load_balancer", Payload.noPayload⟩], .ok⟩

/-- The convergence poll `check_load_balancer_create_complete` (lines
521-556) over the described state code and reason: active/active_impaired
finish, `failed` is a permanent error carrying the provider's reason, any
other state logs "Provisioning" and retries with progress 30 after 8
seconds; a missing or not-found load balancer just returns. -/
def checkLBCreateComplete (lk : Lookup (Option String × Option String)) : Outcome :=
  match lk with
  | .found st =>
      if st.1 == some "active" || st.1 == some "active_impaired" then .ok
      else if st.1 == some "failed" then
        .permError ("Load Balancer Creation Failed " ++ st.2.getD "") 20
      else .retryError 30 (some 8)
  | .emptyList => .ok
  | .notFoundExc => .ok
  | .clientError => .retryError 10 none

/-! ## Operation error classification

Each mutating operation wraps its single boto3 call in a chain of
`except` clauses.  We model the provider error as an `AwsErr` value and
each operation's clause chain as a function to an `Outcome`
(`subjectNotFound` is the NotFound exception of the operation's own
resource).  `str(e)` is modelled as the exception's code name. -/

/-- Provider-side errors distinguished by the modelled clause chains. -/
inductive AwsErr
  | subjectNotFound
  | resourceInUse
  | priorityInUse
  | operationNotPermitted
  | invalidConfiguration
  | duplicateTagKeys
  | tooManyTags
  | otherClient (code : String)
  deriving DecidableEq, Repr

/-- `update_listener` error branches (lines 474-529): every named
exception — including `ListenerNotFoundException` — is a permanent error
with progress 20; anything else goes to `handle_common_errors`. -/
def update_listener_errOutcome : AwsErr → Outcome
  | .subjectNotFound => .permError "ListenerNotFoundException" 20
  | .invalidConfiguration => .permError "InvalidConfigurationRequestException" 20
  | .tooManyTags => .permError "TooManyTagsException" 20
  | _ => .commonErrors "Error Creating Listener" 20

/-- `update_rule` error branches (lines 589-617): `RuleNotFoundException`
is a permanent error with progress 20; `InvalidConfigurationRequest` is
not in this function's clause list and falls to `handle_common_errors`. -/
def update_rule_errOutcome : AwsErr → Outcome
  | .subjectNotFound => .permError "RuleNotFoundException" 20
  | _ => .commonErrors "Error Creating Listener Rule" 20

/-- `update_rule_priority` error branches (lines 634-644): the
`RuleNotFoundException` branch calls `eh.perm_error(str(e), 30)` but the
clause has no `as e` binder, so evaluating `str(e)` raises `NameError`,
which escapes the function. -/
def update_rule_priority_errOutcome : AwsErr → Outcome
  | .subjectNotFound => .internalCrash "NameError"
  | .priorityInUse => .permError "PriorityInUseException" 30
  | .operationNotPermitted => .permError "OperationNotPermittedException" 30
  | _ => .commonErrors "Error Updating the Listener Rule Priority" 80

/-- `set_tags` (listener version, lines 426-449): not-found is a permanent
error with progress 90. -/
def set_tags_listener_errOutcome : AwsErr → Outcome
  | .subjectNotFound => .permError "ListenerNotFoundException" 90
  | .duplicateTagKeys => .permError "DuplicateTagKeysException" 90
  | .tooManyTags => .permError "TooManyTagsException" 90
  | _ => .commonErrors "Error Adding Tags" 90

/-- `set_ip_address_type` error branches (lines 603-632): not-found is a
permanent error with progress 70. -/
def set_ip_address_type_errOutcome : AwsErr → Outcome
  | .subjectNotFound => .permError "LoadBalancerNotFoundException" 70
  | .invalidConfiguration => .permError "InvalidConfigurationRequestException" 70
  | _ => .commonErrors "Error Updating Load Balancer" 70

/-- `remove_tags` (listener version, lines 407-423): not-found logs and
continues. -/
def remove_tags_listener_run : Except AwsErr Unit → Outcome × List String
  | .ok _ => (.ok, ["Removed Tags"])
  | .error .subjectNotFound => (.ok, ["Listener Not Found"])
  | .error _ => (.commonErrors "Error Removing Listener Tags" 90, [])

/-- `delete_listener` (lines 533-547): not-found logs "Old Listener
Doesn't Exist" and continues; in-use and other errors go to
`handle_common_errors` with progress 80. -/
def delete_listener_run : Except AwsErr Unit → Outcome × List String
  | .ok _ => (.ok, ["Listener Deleted"])
  | .error .resourceInUse => (.commonErrors "Error Deleting Listener. Resource in Use." 80, [])
  | .error .subjectNotFound => (.ok, ["Old Listener Doesn't Exist"])
  | .error _ => (.commonErrors "Error Deleting Listener" 80, [])

/-- `delete_rule` (lines 647-659): not-found logs (with the error flag)
and returns without declaring any error. -/
def delete_rule_run : Except AwsErr Unit → Outcome × List String
  | .ok _ => (.ok, ["Listener Rule Deleted"])
  | .error .subjectNotFound => (.ok, ["Listener Rule Not Found"])
  | .error _ => (.commonErrors "Error Deleting Listener Rule" 80, [])

/-- `delete_load_balancer` (lines 757-773): not-found logs "Old Load
Balancer Doesn't Exist" and continues; the `OperationNotPermittedException`
clause has no `as e` binder yet calls `str(e)` inside its `add_log`
argument, raising `NameError`. -/
def delete_load_balancer_run : Except AwsErr Unit → Outcome × List String
  | .ok _ => (.ok, ["Load Balancer Deleted"])
  | .error .resourceInUse =>
      (.commonErrors "Error Deleting Load Balancer. Resource in Use." 80, [])
  | .error .operationNotPermitted => (.internalCrash "NameError", [])
  | .error .subjectNotFound => (.ok, ["Old Load Balancer Doesn't Exist"])
  | .error _ => (.commonErrors "Error Deleting Load Balancer" 80, [])

/-- Modelled from the spec: the `ext` decorator and `eh` error machinery
live in the external `extutil` module, which is not part of src/.  Per the
spec (§4.2, §8 "Immutable-field guard") and the handler docstrings, an
enqueued operation only runs while no permanent error and no retry has
been declared, so a permanent error declared at the starting point
pre-empts every remote call of the pass. -/
def opsWouldRun (r : PhaseRes) : List Op :=
  match r.outcome with
  | .ok => r.ops
  | _ => []

/-- Modelled from the spec: the top-level `except Exception` in each
`lambda_handler` (extutil's `declare_return(200, 0, error_code=str(e))`)
converts any uncaught exception into a generic permanent failure with
progress 0. -/
def topLevelCatch : Outcome → Outcome
  | .internalCrash m => .permError m 0
  | o => o

/-! ## Helper lemmas about association-list lookups and the tag diff -/

theorem lookup_eq_none_iff {β : Type} (l : List (String × β)) (k : String) :
    l.lookup k = none ↔ k ∉ l.map Prod.fst := by
  induction l with
  | nil => simp
  | cons p t ih =>
    rcases p with ⟨a, b⟩
    by_cases h : k = a
    · subst h
      simp [List.lookup]
    · simp [List.lookup, beq_false_of_ne h, ih, h]

theorem lookup_isSome_iff {β : Type} (l : List (String × β)) (k : String) :
    (l.lookup k).isSome ↔ k ∈ l.map Prod.fst := by
  rcases h : l.lookup k with _ | v
  · simp only [Option.isSome_none, Bool.false_eq_true, false_iff]
    exact (lookup_eq_none_iff l k).mp h
  · simp only [Option.isSome_some, true_iff]
    by_contra hk
    exact Option.noConfusion (((lookup_eq_none_iff l k).mpr hk).symm.trans h)

theorem mem_of_lookup_eq_some {β : Type} {l : List (String × β)} {k : String} {v : β}
    (h : l.lookup k = some v) : (k, v) ∈ l := by
  induction l with
  | nil => simp [List.lookup] at h
  | cons p t ih =>
    rcases p with ⟨a, b⟩
    by_cases hk : k = a
    · subst hk
      simp [List.lookup] at h
      simp [h]
    · simp [List.lookup, beq_false_of_ne hk] at h
      simp [ih h]

theorem lookup_eq_some_of_mem_nodup {β : Type} {l : List (String × β)} {k : String} {v : β}
    (hnd : (l.map Prod.fst).Nodup) (h : (k, v) ∈ l) : l.lookup k = some v := by
  induction l with
  | nil => simp at h
  | cons p t ih =>
    rcases p with ⟨a, b⟩
    rw [List.map_cons, List.nodup_cons] at hnd
    rcases List.mem_cons.mp h with h1 | h1
    · cases h1
      simp [List.lookup]
    · have hka : k ≠ a := by
        intro he
        subst he
        exact hnd.1 (List.mem_map.mpr ⟨(k, v), h1, rfl⟩)
      simp [List.lookup, beq_false_of_ne hka]
      exact ih hnd.2 h1

theorem lookup_filterMap_keyed (g : String → Option String)
    (l : List (String × String)) (k : String) :
    (l.filterMap (fun p => (g p.1).map (fun v => (p.1, v)))).lookup k =
      match l.lookup k with
      | some _ => g k
      | none => none := by
  induction l with
  | nil => simp [List.lookup]
  | cons p t ih =>
    rcases p with ⟨a, b⟩
    by_cases hk : k = a
    · subst hk
      rcases hg : g k with _ | w
      · simp [List.filterMap, List.lookup, hg, ih]
        rcases ht : t.lookup k with _ | u
        · simp
        · simp [hg]
      · simp [List.filterMap, List.lookup, hg]
    · rcases hg : g a with _ | w
      · simp [List.filterMap, List.lookup, hg, beq_false_of_ne hk, ih]
      · simp [List.filterMap, List.lookup, hg, beq_false_of_ne hk, ih]

theorem dictEq_nil_left {ct : List (String × String)} (h : dictEq [] ct = true) :
    ct = [] := by
  cases ct with
  | nil => rfl
  | cons p t =>
    exfalso
    simp [dictEq, List.lookup] at h

theorem tagDiffOps_of_tagsMatch {dt : Option (List (String × String))}
    {ct : List (String × String)} (h : tagsMatch dt ct) : tagDiffOps dt ct = [] := by
  rcases dt with _ | ts
  · simp [tagsMatch] at h
    simp [tagDiffOps, tagRemoveStragglers, h]
  · simp only [tagsMatch] at h
    cases hts : ts with
    | nil =>
      subst hts
      have := dictEq_nil_left h
      simp [tagDiffOps, tagRemoveStragglers, this]
    | cons q u =>
      rw [hts] at h
      simp [tagDiffOps, h]

theorem mem_ite_nil_single {o x : Op} {c : Prop} [Decidable c]
    (h : o ∈ (if c then ([] : List Op) else [x])) : o = x := by
  split at h
  · simp at h
  · simpa using h

theorem mem_ite_single_nil {o x : Op} {c : Prop} [Decidable c]
    (h : o ∈ (if c then [x] else ([] : List Op))) : o = x := by
  split at h
  · simpa using h
  · simp at h

theorem beq_none_some {α : Type} [BEq α] (v : α) :
    ((none : Option α) == some v) = false := rfl

theorem tagDiffOps_name_mem {dt : Option (List (String × String))}
    {ct : List (String × String)} {o : Op} (h : o ∈ tagDiffOps dt ct) :
    o.name = "remove_tags" ∨ o.name = "set_tags" := by
  have hstrag : ∀ (l : List (String × String)), o ∈ tagRemoveStragglers l →
      o.name = "remove_tags" ∨ o.name = "set_tags" := by
    intro l hl
    simp only [tagRemoveStragglers] at hl
    rw [mem_ite_nil_single hl]
    left; rfl
  rcases dt with _ | ts
  · exact hstrag ct h
  · simp only [tagDiffOps] at h
    split at h
    · exact hstrag ct h
    · split at h
      · simp at h
      · rcases List.mem_append.mp h with h1 | h1
        · rw [mem_ite_nil_single h1]
          left; rfl
        · rw [mem_ite_nil_single h1]
          right; rfl

theorem exceptBind_ok {ε α β : Type} (x : α) (f : α → Except ε β) :
    ((Except.ok x : Except ε α) >>= f) = f x := rfl

theorem lookup_append {β : Type} (a b : List (String × β)) (k : String) :
    (a ++ b).lookup k =
      match a.lookup k with
      | some v => some v
      | none => b.lookup k := by
  induction a with
  | nil => simp [List.lookup]
  | cons p t ih =>
    rcases p with ⟨x, y⟩
    by_cases hk : k = x
    · subst hk
      simp [List.lookup]
    · simp [List.lookup, beq_false_of_ne hk, ih]

theorem lbAttributes_lookup_lower (name : String) (c : LBCdef) :
    (lbAttributes name c).lookup "ip_address_type" = none ∧
    (lbAttributes name c).lookup "subnets" = none ∧
    (lbAttributes name c).lookup "security_groups" = none ∧
    (lbAttributes name c).lookup "load_balancer_type" = none := by
  have hkeys : ∀ k, k ∈ (lbAttributes name c).map Prod.fst →
      k ∈ ["Name", "Subnets", "SecurityGroups", "Scheme", "Tags", "Type", "IpAddressType"] := by
    rcases c with ⟨s, g, sch, t, ty, ip⟩
    intro k hk
    simp only [lbAttributes, List.map_append, List.mem_append] at hk
    rcases hk with ((((((h | h) | h) | h) | h) | h) | h)
    · simp at h
      simp [h]
    · rcases s with _ | l <;> simp at h
      simp [h]
    · rcases g with _ | l <;> simp at h
      simp [h]
    · simp at h
      simp [h]
    · rcases t with _ | ts
      · simp at h
      · rcases ts with _ | ⟨q, u⟩ <;> simp at h
        simp [h]
    · simp at h
      simp [h]
    · simp at h
      simp [h]
  refine ⟨?_, ?_, ?_, ?_⟩ <;>
    · rw [lookup_eq_none_iff]
      intro hmem
      have := hkeys _ hmem
      simp at this

/-! ## Claim theorems -/

/-- C1: the claim states that in all three handlers an upsert whose
PreviousState records a differing value for a designated immutable field
fails permanently before any remote call.  The rule handler violates this:
its guard reads the never-written props key `old_listener_arn` and then
compares `old_listener_arn != old_listener_arn`, so for every possible
previous props dict and every declared listener ARN the starting point
declares no error at all and the remote-calling `get_rule` operation still
runs. -/
theorem c1_rule_guard_never_fires :
    ∀ (props : Option (List (String × PVal))) (la : Option String),
      (ruleUpsertStart props la).outcome = Outcome.ok ∧
      opsWouldRun (ruleUpsertStart props la) = [⟨"get_rule", Payload.noPayload⟩] := by
  intro props la
  have hguard : ∀ (o : Option PVal),
      (match o with | some v => pvalTruthy v && !(v == v) | none => false) = false := by
    intro o
    rcases o with _ | v
    · rfl
    · simp
  have hg : (ruleUpsertStart props la) = ⟨[⟨"get_rule", Payload.noPayload⟩], Outcome.ok⟩ := by
    cases props with
    | none => rfl
    | some ps =>
      simp [ruleUpsertStart, hguard]
      rcases List.lookup "old_listener_arn" ps with _ | v <;> rfl
  rw [hg]
  exact ⟨rfl, rfl⟩

/-- C5 counterexample: the claim states every delete or update operation
that receives a not-found error logs and continues without a permanent
error.  `update_listener` receiving `ListenerNotFoundException` instead
declares a permanent error with progress 20 (lines 474-476). -/
theorem c5_update_listener_notfound_is_permanent :
    update_listener_errOutcome AwsErr.subjectNotFound =
      Outcome.permError "ListenerNotFoundException" 20 ∧
    update_listener_errOutcome AwsErr.subjectNotFound ≠ Outcome.ok := by
  exact ⟨rfl, by decide⟩

/-- C5 (amended): the delete operations (`delete_listener`, `delete_rule`,
`delete_load_balancer`) and `remove_tags` treat a not-found error as
already-satisfied — they log and continue without declaring any error —
while the update-class operations (`update_listener`, `update_rule`,
`set_tags`, `set_ip_address_type`) declare a permanent error on not-found,
and `update_rule_priority`'s not-found branch crashes with a `NameError`. -/
theorem c5_amended_notfound_handling :
    delete_listener_run (.error AwsErr.subjectNotFound) =
      (Outcome.ok, ["Old Listener Doesn't Exist"]) ∧
    delete_rule_run (.error AwsErr.subjectNotFound) =
      (Outcome.ok, ["Listener Rule Not Found"]) ∧
    delete_load_balancer_run (.error AwsErr.subjectNotFound) =
      (Outcome.ok, ["Old Load Balancer Doesn't Exist"]) ∧
    remove_tags_listener_run (.error AwsErr.subjectNotFound) =
      (Outcome.ok, ["Listener Not Found"]) ∧
    update_listener_errOutcome AwsErr.subjectNotFound =
      Outcome.permError "ListenerNotFoundException" 20 ∧
    update_rule_errOutcome AwsErr.subjectNotFound =
      Outcome.permError "RuleNotFoundException" 20 ∧
    set_tags_listener_errOutcome AwsErr.subjectNotFound =
      Outcome.permError "ListenerNotFoundException" 90 ∧
    set_ip_address_type_errOutcome AwsErr.subjectNotFound =
      Outcome.permError "LoadBalancerNotFoundException" 70 ∧
    update_rule_priority_errOutcome AwsErr.subjectNotFound =
      Outcome.internalCrash "NameError" := by
  exact ⟨rfl, rfl, rfl, rfl, rfl, rfl, rfl, rfl, rfl⟩

/-- C3: for every pair of a current-tags map and a non-empty desired-tags
map (both with the unique keys of Python dicts), `remove_tags` gets
exactly the keys present in current but absent from desired, `set_tags`
gets exactly the desired pairs whose value differs from the current value,
a key appears in the union of the two iff the two maps disagree on it (the
symmetric difference), and no key appears in both. -/
theorem c3_tag_symmetric_difference :
    ∀ current desired : List (String × String),
      desired ≠ [] →
      (current.map Prod.fst).Nodup →
      (desired.map Prod.fst).Nodup →
      (∀ k, k ∈ removeTagsCalc current desired ↔
          k ∈ current.map Prod.fst ∧ desired.lookup k = none) ∧
      (∀ k v, (k, v) ∈ addTagsCalc current desired ↔
          (k, v) ∈ desired ∧ current.lookup k ≠ some v) ∧
      (∀ k, (k ∈ removeTagsCalc current desired ∨
             k ∈ (addTagsCalc current desired).map Prod.fst) ↔
          current.lookup k ≠ desired.lookup k) ∧
      (∀ k, k ∈ removeTagsCalc current desired →
          k ∉ (addTagsCalc current desired).map Prod.fst) := by
  intro current desired _hne _hndc hndd
  have hrem : ∀ k, k ∈ removeTagsCalc current desired ↔
      k ∈ current.map Prod.fst ∧ desired.lookup k = none := by
    intro k
    simp only [removeTagsCalc, List.mem_filter, decide_eq_true_eq]
    rw [lookup_eq_none_iff]
  have hadd : ∀ k v, (k, v) ∈ addTagsCalc current desired ↔
      (k, v) ∈ desired ∧ current.lookup k ≠ some v := by
    intro k v
    simp only [addTagsCalc, List.mem_filter, decide_eq_true_eq]
  refine ⟨hrem, hadd, ?_, ?_⟩
  · intro k
    constructor
    · rintro (hk | hk)
      · obtain ⟨hmem, hnone⟩ := (hrem k).mp hk
        rw [hnone]
        intro hcontra
        exact (lookup_eq_none_iff current k).mp hcontra hmem
      · rcases List.mem_map.mp hk with ⟨⟨k2, v⟩, hp, hfst⟩
        simp only at hfst
        subst hfst
        obtain ⟨hdes, hneq⟩ := (hadd k2 v).mp hp
        rw [lookup_eq_some_of_mem_nodup hndd hdes]
        exact hneq
    · intro hne2
      rcases hlkd : desired.lookup k with _ | v
      · left
        refine (hrem k).mpr ⟨?_, hlkd⟩
        rcases hlkc : current.lookup k with _ | w
        · exact absurd (hlkc.trans hlkd.symm) hne2
        · exact List.mem_map.mpr ⟨(k, w), mem_of_lookup_eq_some hlkc, rfl⟩
      · right
        have hdes : (k, v) ∈ desired := mem_of_lookup_eq_some hlkd
        rw [hlkd] at hne2
        exact List.mem_map.mpr ⟨(k, v), (hadd k v).mpr ⟨hdes, hne2⟩, rfl⟩
  · intro k hkrem hkadd
    obtain ⟨_, hnone⟩ := (hrem k).mp hkrem
    rcases List.mem_map.mp hkadd with ⟨⟨k2, v⟩, hp, hfst⟩
    simp only at hfst
    subst hfst
    obtain ⟨hdes, _⟩ := (hadd k2 v).mp hp
    exact (lookup_eq_none_iff desired k2).mp hnone
      (List.mem_map.mpr ⟨(k2, v), hdes, rfl⟩)

/-- C3 witness at the spec's own scenario: current tags `{a:1, b:2}`,
desired tags `{b:2, c:3}` — key `a` is in the remove/add union exactly
because the two maps disagree on it, and `b` is in neither. -/
theorem c3_tag_symmetric_difference_witness :
    (("a" ∈ removeTagsCalc [("a", "1"), ("b", "2")] [("b", "2"), ("c", "3")] ∨
      "a" ∈ (addTagsCalc [("a", "1"), ("b", "2")] [("b", "2"), ("c", "3")]).map Prod.fst) ↔
      List.lookup "a" [("a", "1"), ("b", "2")] ≠ List.lookup "a" [("b", "2"), ("c", "3")]) ∧
    ("b" ∈ removeTagsCalc [("a", "1"), ("b", "2")] [("b", "2"), ("c", "3")] →
      "b" ∉ (addTagsCalc [("a", "1"), ("b", "2")] [("b", "2"), ("c", "3")]).map Prod.fst) := by
  have h := c3_tag_symmetric_difference [("a", "1"), ("b", "2")] [("b", "2"), ("c", "3")]
    (by decide) (by decide) (by decide)
  exact ⟨h.2.2.1 "a", h.2.2.2 "b"⟩

/-- C2 counterexample: the claim states an exactly-matching remote
resource yields zero mutating operations.  Concrete load-balancer pass in
which everything matches exactly — the previous props echo the declared
name/scheme/type/ip/subnets/security groups, the live load balancer agrees,
no special attributes are declared and the current special attributes equal
the documented defaults, and tags are empty on both sides — yet the GET
phase enqueues four mutating operations (`set_ip_address_type`,
`set_subnets`, `set_security_groups`,
`reset_load_balancer_special_attributes`): the divergence checks read the
lowercase keys `ip_address_type`/`subnets`/`security_groups`, absent from
the capitalized attributes dict, and the special-attributes branch always
enqueues one of its two operations. -/
theorem c2_lb_exact_match_enqueues_mutations :
    getLoadBalancerRes "mylb"
        (lbAttributes "mylb" ⟨some ["subnet-1"], some ["sg-1"], none, none, none, none⟩)
        [] defaultSpecialAttributes
        (some [("name", LBVal.vstr "mylb"), ("scheme", LBVal.vstr "internal"),
               ("load_balancer_type", LBVal.vstr "application"),
               ("ip_address_type", LBVal.vstr "ipv4"),
               ("subnets", LBVal.vlist ["subnet-1"]),
               ("security_groups", LBVal.vlist ["sg-1"]),
               ("arn", LBVal.vstr "arn-1")])
        (.found ⟨"arn-1", some "ipv4"⟩)
        (.got defaultSpecialAttributes) (.got []) =
      ⟨[⟨"set_ip_address_type", Payload.noPayload⟩,
        ⟨"set_subnets", Payload.noPayload⟩,
        ⟨"set_security_groups", Payload.noPayload⟩,
        ⟨"reset_load_balancer_special_attributes", Payload.noPayload⟩], Outcome.ok⟩ := by
  rfl

/-- C2 (amended): with an exactly-matching remote resource the listener
and rule GET phases enqueue zero operations; the load-balancer GET phase,
even on an exact match, enqueues the three network `set` operations (for
every lowercase key recorded in PreviousState.props, since the attributes
dict only has capitalized keys) followed by exactly one special-attributes
operation (reset, when none are declared). -/
theorem c2_idempotent_convergence_amended :
    (∀ (d : ListenerApiAttrs) (dt : Option (List (String × String)))
       (lv : LiveListener) (ct : List (String × String)),
       d = listenerCurrentAttrs lv → tagsMatch dt ct →
       getListenerFoundRes d dt lv (.got ct) = ⟨[], Outcome.ok⟩) ∧
    (∀ (d : RuleApiAttrs) (dt : Option (List (String × String)))
       (pla : Option String) (rv : LiveRule) (ct : List (String × String))
       (cur : RuleApiAttrs),
       ruleCurrentAttrs pla rv = .ok cur →
       ruleComparable d = ruleComparable cur →
       d.Priority = cur.Priority →
       tagsMatch dt ct →
       getRuleFoundRes d dt pla rv (.got ct) = .ok ⟨[], Outcome.ok⟩) ∧
    (∀ (name : String) (c : LBCdef) (ps : List (String × LBVal)) (lv : LiveLB)
       (raw ct : List (String × String)) (vip vsub vsg : LBVal),
       ps.lookup "name" = some (LBVal.vstr name) →
       ps.lookup "ip_address_type" = some vip →
       ps.lookup "subnets" = some vsub →
       ps.lookup "security_groups" = some vsg →
       tagsMatch (lbGetTags (lbAttributes name c)) ct →
       getLoadBalancerRes name (lbAttributes name c) [] defaultSpecialAttributes
           (some ps) (.found lv) (.got raw) (.got ct) =
         ⟨[⟨"set_ip_address_type", Payload.noPayload⟩,
           ⟨"set_subnets", Payload.noPayload⟩,
           ⟨"set_security_groups", Payload.noPayload⟩,
           ⟨"reset_load_balancer_special_attributes", Payload.noPayload⟩],
          Outcome.ok⟩) := by
  refine ⟨?_, ?_, ?_⟩
  · intro d dt lv ct hd ht
    subst hd
    simp [getListenerFoundRes, tagDiffOps_of_tagsMatch ht]
  · intro d dt pla rv ct cur hcur hcomp hprio ht
    simp only [getRuleFoundRes, hcur, exceptBind_ok]
    rw [if_neg (by simp [hcomp]), if_neg (by simp [hprio])]
    simp [tagDiffOps_of_tagsMatch ht]
  · intro name c ps lv raw ct vip vsub vsg hname hip hsub hsg ht
    obtain ⟨hA, hB, hC, _⟩ := lbAttributes_lookup_lower name c
    have hguard : lbNameGuardFires name (some ps) = false := by
      simp [lbNameGuardFires, hname]
    have hdiv : lbDivergenceOps (lbAttributes name c) ps =
        ([⟨"set_ip_address_type", Payload.noPayload⟩,
          ⟨"set_subnets", Payload.noPayload⟩,
          ⟨"set_security_groups", Payload.noPayload⟩], none) := by
      simp [lbDivergenceOps, hA, hB, hC, hip, hsub, hsg]
    simp [getLoadBalancerRes, hguard, hdiv, specialAttrOpsGet,
      tagDiffOps_of_tagsMatch ht]

/-- C2 witness: concrete exactly-matching passes for all three handlers —
the listener and rule GET phases enqueue nothing, the load-balancer GET
phase enqueues exactly the three set operations and the reset operation. -/
theorem c2_idempotent_convergence_amended_witness :
    getListenerFoundRes
        (listenerCurrentAttrs ⟨"arnL", some "lb", some 443, some "HTTPS", some "forward",
          some "tg", some "ELBSecurityPolicy-TLS13-1-2-2021-06", none⟩)
        none
        ⟨"arnL", some "lb", some 443, some "HTTPS", some "forward",
          some "tg", some "ELBSecurityPolicy-TLS13-1-2-2021-06", none⟩
        (.got []) = ⟨[], Outcome.ok⟩ ∧
    getRuleFoundRes ⟨some "L", none, some (PVal.pint 5), some "forward", some "tg"⟩
        none (some "L") ⟨"R", some "5", [], some "forward", some "tg"⟩ (.got []) =
      .ok ⟨[], Outcome.ok⟩ ∧
    getLoadBalancerRes "mylb"
        (lbAttributes "mylb" ⟨some ["subnet-1"], some ["sg-1"], none, none, none, none⟩)
        [] defaultSpecialAttributes
        (some [("name", LBVal.vstr "mylb"), ("scheme", LBVal.vstr "internal"),
               ("load_balancer_type", LBVal.vstr "application"),
               ("ip_address_type", LBVal.vstr "ipv4"),
               ("subnets", LBVal.vlist ["subnet-1"]),
               ("security_groups", LBVal.vlist ["sg-1"]),
               ("arn", LBVal.vstr "arn-1")])
        (.found ⟨"arn-1", some "ipv4"⟩)
        (.got defaultSpecialAttributes) (.got []) =
      ⟨[⟨"set_ip_address_type", Payload.noPayload⟩,
        ⟨"set_subnets", Payload.noPayload⟩,
        ⟨"set_security_groups", Payload.noPayload⟩,
        ⟨"reset_load_balancer_special_attributes", Payload.noPayload⟩], Outcome.ok⟩ := by
  refine ⟨?_, ?_, ?_⟩
  · exact c2_idempotent_convergence_amended.1 _ none _ [] rfl rfl
  · exact c2_idempotent_convergence_amended.2.1 _ none (some "L") _ []
      ⟨some "L", none, some (PVal.pint 5), some "forward", some "tg"⟩
      rfl rfl rfl rfl
  · exact c2_idempotent_convergence_amended.2.2 "mylb"
      ⟨some ["subnet-1"], some ["sg-1"], none, none, none, none⟩ _ _
      defaultSpecialAttributes [] (LBVal.vstr "ipv4") (LBVal.vlist ["subnet-1"])
      (LBVal.vlist ["sg-1"]) rfl rfl rfl rfl rfl

/-- C4: in each handler's GET phase, a missing previous identifier or a
not-found lookup (and for the listener/rule also an empty describe result)
enqueues exactly one create operation and nothing else, with no error
declared; for the load balancer a name lookup raising the not-found
exception does the same, provided the name guard at the top of
`get_load_balancer` did not fire. -/
theorem c4_create_on_absence :
    (∀ (lk : Lookup LiveListener) d dt tr,
       getListenerRes none lk d dt tr =
         ⟨[⟨"create_listener", Payload.noPayload⟩], Outcome.ok⟩) ∧
    (∀ (pa : String) d dt tr,
       getListenerRes (some pa) Lookup.notFoundExc d dt tr =
         ⟨[⟨"create_listener", Payload.noPayload⟩], Outcome.ok⟩) ∧
    (∀ (pa : String) d dt tr,
       getListenerRes (some pa) Lookup.emptyList d dt tr =
         ⟨[⟨"create_listener", Payload.noPayload⟩], Outcome.ok⟩) ∧
    (∀ (pla : Option String) (lk : Lookup LiveRule) d dt tr,
       getRuleRes none pla lk d dt tr =
         .ok ⟨[⟨"create_rule", Payload.noPayload⟩], Outcome.ok⟩) ∧
    (∀ (pa : String) (pla : Option String) d dt tr,
       getRuleRes (some pa) pla Lookup.notFoundExc d dt tr =
         .ok ⟨[⟨"create_rule", Payload.noPayload⟩], Outcome.ok⟩) ∧
    (∀ (pa : String) (pla : Option String) d dt tr,
       getRuleRes (some pa) pla Lookup.emptyList d dt tr =
         .ok ⟨[⟨"create_rule", Payload.noPayload⟩], Outcome.ok⟩) ∧
    (∀ (name : String) attrs sp df prev spr tr,
       lbNameGuardFires name prev = false →
       getLoadBalancerRes name attrs sp df prev Lookup.notFoundExc spr tr =
         ⟨[⟨"create_load_balancer", Payload.noPayload⟩], Outcome.ok⟩) := by
  refine ⟨fun lk d dt tr => rfl, ?_, ?_, fun pla lk d dt tr => rfl, ?_, ?_, ?_⟩
  · intro pa d dt tr
    by_cases h : strTruthy (some pa) = true
    · simp [getListenerRes, h]
    · simp [getListenerRes, Bool.eq_false_iff.mpr h]
  · intro pa d dt tr
    by_cases h : strTruthy (some pa) = true
    · simp [getListenerRes, h]
    · simp [getListenerRes, Bool.eq_false_iff.mpr h]
  · intro pa pla d dt tr
    by_cases h : strTruthy (some pa) = true
    · simp [getRuleRes, h]
    · simp [getRuleRes, Bool.eq_false_iff.mpr h]
  · intro pa pla d dt tr
    by_cases h : strTruthy (some pa) = true
    · simp [getRuleRes, h]
    · simp [getRuleRes, Bool.eq_false_iff.mpr h]
  · intro name attrs sp df prev spr tr h
    simp [getLoadBalancerRes, h]

/-- C4 witness: a concrete load-balancer pass with empty previous state
whose name lookup raises not-found enqueues exactly the create operation. -/
theorem c4_create_on_absence_witness :
    getLoadBalancerRes "my-lb" [] [] defaultSpecialAttributes none
        Lookup.notFoundExc FetchRes.resourceNotFound FetchRes.resourceNotFound =
      ⟨[⟨"create_load_balancer", Payload.noPayload⟩], Outcome.ok⟩ :=
  c4_create_on_absence.2.2.2.2.2.2 "my-lb" [] [] defaultSpecialAttributes none
    FetchRes.resourceNotFound FetchRes.resourceNotFound rfl

/-- C6: the load-balancer convergence poll retries with progress 30 and an
8-second callback while the state is "provisioning" (declaring no
permanent error), terminates successfully on "active" or
"active_impaired", permanently fails on "failed" with a message carrying
the provider's stated reason (progress 20), and terminates without error
when the load balancer is not found. -/
theorem c6_convergence_poll :
    (∀ r : Option String,
       checkLBCreateComplete (.found (some "provisioning", r)) =
         Outcome.retryError 30 (some 8)) ∧
    (∀ r : Option String,
       checkLBCreateComplete (.found (some "active", r)) = Outcome.ok) ∧
    (∀ r : Option String,
       checkLBCreateComplete (.found (some "active_impaired", r)) = Outcome.ok) ∧
    (∀ reason : String,
       checkLBCreateComplete (.found (some "failed", some reason)) =
         Outcome.permError ("Load Balancer Creation Failed " ++ reason) 20) ∧
    checkLBCreateComplete Lookup.notFoundExc = Outcome.ok := by
  refine ⟨fun r => rfl, fun r => rfl, fun r => rfl, fun reason => rfl, rfl⟩

/-- C7 counterexample: the claim states the update payload maps every key
currently exposed by the provider.  With the provider exposing
`deletion_protection.enabled`, `access_logs.s3.bucket` and
`ipv6.deny_all_igw_traffic` on an ipv4 load balancer and the caller
declaring one special attribute, the single update operation's payload
omits `access_logs.s3.bucket` (no declared value and its documented
default is `None`, dropped by `remove_none_attributes`) and
`ipv6.deny_all_igw_traffic` (popped for ipv4 load balancers), even though
the provider exposes both. -/
theorem c7_update_payload_omits_exposed_keys :
    specialAttrOpsGet [("deletion_protection.enabled", "true")] defaultSpecialAttributes
        (currentSpecialAttrs
          [("deletion_protection.enabled", "false"), ("access_logs.s3.bucket", ""),
           ("ipv6.deny_all_igw_traffic", "off")] (some "ipv4")) =
      [⟨"update_load_balancer_special_attributes",
        Payload.tagMap [("deletion_protection.enabled", "true")]⟩] ∧
    List.lookup "access_logs.s3.bucket"
      [("deletion_protection.enabled", "false"), ("access_logs.s3.bucket", ""),
       ("ipv6.deny_all_igw_traffic", "off")] = some "" ∧
    List.lookup "ipv6.deny_all_igw_traffic"
      [("deletion_protection.enabled", "false"), ("access_logs.s3.bucket", ""),
       ("ipv6.deny_all_igw_traffic", "off")] = some "off" ∧
    List.lookup "access_logs.s3.bucket" [("deletion_protection.enabled", "true")] = none ∧
    List.lookup "ipv6.deny_all_igw_traffic" [("deletion_protection.enabled", "true")] = none := by
  exact ⟨rfl, rfl, rfl, rfl, rfl⟩

/-- C7 (amended): when any special attribute is declared, the pass
enqueues exactly one update-special-attributes operation whose payload
maps each currently exposed key (after the ipv4 pop of
`ipv6.deny_all_igw_traffic`) that has a declared value or a documented
default to the declared value when present, otherwise the default, and
omits exposed keys that have neither; when none is declared, it enqueues
exactly one reset operation whose payload restores the documented default
for each currently exposed key that has one, omitting the rest. -/
theorem c7_special_attributes_amended :
    (∀ declared defaults current : List (String × String),
       declared ≠ [] →
       specialAttrOpsGet declared defaults current =
         [⟨"update_load_balancer_special_attributes",
           Payload.tagMap (computeUpdateSpecial declared defaults current)⟩] ∧
       (∀ k, (computeUpdateSpecial declared defaults current).lookup k =
          match current.lookup k with
          | some _ => pyOr (declared.lookup k) (defaults.lookup k)
          | none => none)) ∧
    (∀ declared defaults current : List (String × String),
       declared = [] →
       specialAttrOpsGet declared defaults current =
         [⟨"reset_load_balancer_special_attributes", Payload.noPayload⟩] ∧
       specialAttrOpsCreate declared defaults current =
         [⟨"reset_load_balancer_special_attributes", Payload.tagMap current⟩]) ∧
    (∀ defaults current : List (String × String), ∀ k,
       (resetSpecialPayload defaults current).lookup k =
          match current.lookup k with
          | some _ => defaults.lookup k
          | none => none) := by
  refine ⟨?_, ?_, ?_⟩
  · intro declared defaults current hne
    have hemp : declared.isEmpty = false := by
      cases declared with
      | nil => exact absurd rfl hne
      | cons p t => rfl
    refine ⟨by simp [specialAttrOpsGet, hemp], ?_⟩
    intro k
    exact lookup_filterMap_keyed
      (fun x => pyOr (declared.lookup x) (defaults.lookup x)) current k
  · intro declared defaults current he
    subst he
    exact ⟨rfl, rfl⟩
  · intro defaults current k
    exact lookup_filterMap_keyed (fun x => defaults.lookup x) current k

/-- C7 witness: with `idle_timeout.timeout_seconds` declared, the pass
enqueues exactly one update operation, and the payload entry for the
exposed key `routing.http2.enabled` is its declared-or-default value. -/
theorem c7_special_attributes_amended_witness :
    specialAttrOpsGet [("idle_timeout.timeout_seconds", "30")] defaultSpecialAttributes
        [("idle_timeout.timeout_seconds", "60"), ("routing.http2.enabled", "true")] =
      [⟨"update_load_balancer_special_attributes",
        Payload.tagMap (computeUpdateSpecial [("idle_timeout.timeout_seconds", "30")]
          defaultSpecialAttributes
          [("idle_timeout.timeout_seconds", "60"), ("routing.http2.enabled", "true")])⟩] ∧
    (computeUpdateSpecial [("idle_timeout.timeout_seconds", "30")] defaultSpecialAttributes
        [("idle_timeout.timeout_seconds", "60"), ("routing.http2.enabled", "true")]).lookup
        "routing.http2.enabled" =
      match List.lookup "routing.http2.enabled"
          [("idle_timeout.timeout_seconds", "60"), ("routing.http2.enabled", "true")] with
      | some _ => pyOr (List.lookup "routing.http2.enabled"
          [("idle_timeout.timeout_seconds", "30")])
          (List.lookup "routing.http2.enabled" defaultSpecialAttributes)
      | none => none := by
  have h := c7_special_attributes_amended.1 [("idle_timeout.timeout_seconds", "30")]
    defaultSpecialAttributes
    [("idle_timeout.timeout_seconds", "60"), ("routing.http2.enabled", "true")] (by decide)
  exact ⟨h.1, h.2 "routing.http2.enabled"⟩

/-- C8 counterexample: the claim states the update comparison excludes
immutable identity fields from both sides.  Concrete listener pass in
which the desired and live attributes agree on every field except the
immutable `LoadBalancerArn`, yet `update_listener` is enqueued — the
comparison (which excludes only `Tags`) is sensitive to the immutable
field. -/
theorem c8_comparison_includes_immutable_field :
    getListenerFoundRes
        ⟨some "lbA", some "HTTPS", some 443, some "ELBSecurityPolicy-TLS13-1-2-2021-06",
          none, some "forward", some "tg"⟩
        none
        ⟨"arnL", some "lbB", some 443, some "HTTPS", some "forward", some "tg",
          some "ELBSecurityPolicy-TLS13-1-2-2021-06", none⟩
        (.got []) = ⟨[⟨"update_listener", Payload.noPayload⟩], Outcome.ok⟩ ∧
    (⟨some "lbA", some "HTTPS", some 443, some "ELBSecurityPolicy-TLS13-1-2-2021-06",
       none, some "forward", some "tg"⟩ : ListenerApiAttrs).loadBalancerArn ≠
      (listenerCurrentAttrs ⟨"arnL", some "lbB", some 443, some "HTTPS", some "forward",
        some "tg", some "ELBSecurityPolicy-TLS13-1-2-2021-06", none⟩).loadBalancerArn ∧
    (⟨some "lbA", some "HTTPS", some 443, some "ELBSecurityPolicy-TLS13-1-2-2021-06",
       none, some "forward", some "tg"⟩ : ListenerApiAttrs).protocol =
      (listenerCurrentAttrs ⟨"arnL", some "lbB", some 443, some "HTTPS", some "forward",
        some "tg", some "ELBSecurityPolicy-TLS13-1-2-2021-06", none⟩).protocol ∧
    (⟨some "lbA", some "HTTPS", some 443, some "ELBSecurityPolicy-TLS13-1-2-2021-06",
       none, some "forward", some "tg"⟩ : ListenerApiAttrs).port =
      (listenerCurrentAttrs ⟨"arnL", some "lbB", some 443, some "HTTPS", some "forward",
        some "tg", some "ELBSecurityPolicy-TLS13-1-2-2021-06", none⟩).port ∧
    (⟨some "lbA", some "HTTPS", some 443, some "ELBSecurityPolicy-TLS13-1-2-2021-06",
       none, some "forward", some "tg"⟩ : ListenerApiAttrs).sslPolicy =
      (listenerCurrentAttrs ⟨"arnL", some "lbB", some 443, some "HTTPS", some "forward",
        some "tg", some "ELBSecurityPolicy-TLS13-1-2-2021-06", none⟩).sslPolicy ∧
    (⟨some "lbA", some "HTTPS", some 443, some "ELBSecurityPolicy-TLS13-1-2-2021-06",
       none, some "forward", some "tg"⟩ : ListenerApiAttrs).certificates =
      (listenerCurrentAttrs ⟨"arnL", some "lbB", some 443, some "HTTPS", some "forward",
        some "tg", some "ELBSecurityPolicy-TLS13-1-2-2021-06", none⟩).certificates ∧
    (⟨some "lbA", some "HTTPS", some 443, some "ELBSecurityPolicy-TLS13-1-2-2021-06",
       none, some "forward", some "tg"⟩ : ListenerApiAttrs).actionType =
      (listenerCurrentAttrs ⟨"arnL", some "lbB", some 443, some "HTTPS", some "forward",
        some "tg", some "ELBSecurityPolicy-TLS13-1-2-2021-06", none⟩).actionType ∧
    (⟨some "lbA", some "HTTPS", some 443, some "ELBSecurityPolicy-TLS13-1-2-2021-06",
       none, some "forward", some "tg"⟩ : ListenerApiAttrs).targetGroupArn =
      (listenerCurrentAttrs ⟨"arnL", some "lbB", some 443, some "HTTPS", some "forward",
        some "tg", some "ELBSecurityPolicy-TLS13-1-2-2021-06", none⟩).targetGroupArn := by
  refine ⟨rfl, by decide, rfl, rfl, rfl, rfl, rfl, rfl⟩

/-- C8 (amended): the listener comparison excludes only `Tags` (retaining
the immutable `LoadBalancerArn`): `update_listener` is enqueued exactly
when the desired attributes differ from the re-derived current attributes.
The rule comparison excludes `Tags` and `Priority` (retaining the
immutable `ListenerArn`), and `update_rule_priority` is enqueued as a
distinct operation exactly when the `Priority` entries differ. -/
theorem c8_field_comparison_amended :
    (∀ (d : ListenerApiAttrs) dt (lv : LiveListener) ct,
       ((⟨"update_listener", Payload.noPayload⟩ : Op) ∈
          (getListenerFoundRes d dt lv (.got ct)).ops) ↔
         d ≠ listenerCurrentAttrs lv) ∧
    (∀ (d : RuleApiAttrs) dt (pla : Option String) (rv : LiveRule) ct
       (cur : RuleApiAttrs) (r : PhaseRes),
       ruleCurrentAttrs pla rv = .ok cur →
       getRuleFoundRes d dt pla rv (.got ct) = .ok r →
       (((⟨"update_rule", Payload.noPayload⟩ : Op) ∈ r.ops) ↔
          ruleComparable d ≠ ruleComparable cur) ∧
       (((⟨"update_rule_priority", Payload.noPayload⟩ : Op) ∈ r.ops) ↔
          d.Priority ≠ cur.Priority)) := by
  constructor
  · intro d dt lv ct
    simp only [getListenerFoundRes]
    constructor
    · intro h
      rcases List.mem_append.mp h with h1 | h1
      · by_cases hc : d = listenerCurrentAttrs lv
        · rw [if_neg (by simp [hc])] at h1
          simp at h1
        · exact hc
      · rcases tagDiffOps_name_mem h1 with h2 | h2 <;> exact absurd h2 (by decide)
    · intro hne
      refine List.mem_append.mpr (Or.inl ?_)
      rw [if_pos hne]
      simp
  · intro d dt pla rv ct cur r hcur hres
    simp only [getRuleFoundRes, hcur, exceptBind_ok, Except.ok.injEq] at hres
    subst hres
    constructor
    · constructor
      · intro h
        rcases List.mem_append.mp h with h1 | h1
        · rcases List.mem_append.mp h1 with h2 | h2
          · by_cases hc : ruleComparable d = ruleComparable cur
            · rw [if_neg (by simp [hc])] at h2
              simp at h2
            · exact hc
          · exact absurd (mem_ite_single_nil h2) (by decide)
        · rcases tagDiffOps_name_mem h1 with h2 | h2 <;> exact absurd h2 (by decide)
      · intro hne
        refine List.mem_append.mpr (Or.inl (List.mem_append.mpr (Or.inl ?_)))
        rw [if_pos hne]
        simp
    · constructor
      · intro h
        rcases List.mem_append.mp h with h1 | h1
        · rcases List.mem_append.mp h1 with h2 | h2
          · exact absurd (mem_ite_single_nil h2) (by decide)
          · by_cases hc : d.Priority = cur.Priority
            · rw [if_neg (by simp [hc])] at h2
              simp at h2
            · exact hc
        · rcases tagDiffOps_name_mem h1 with h2 | h2 <;> exact absurd h2 (by decide)
      · intro hne
        refine List.mem_append.mpr (Or.inl (List.mem_append.mpr (Or.inr ?_)))
        rw [if_pos hne]
        simp

/-- C8 witness: a concrete rule pass whose desired attributes differ from
the live ones only in the immutable `ListenerArn` enqueues `update_rule`
and not `update_rule_priority`. -/
theorem c8_field_comparison_amended_witness :
    (((⟨"update_rule", Payload.noPayload⟩ : Op) ∈
        (⟨[⟨"update_rule", Payload.noPayload⟩], Outcome.ok⟩ : PhaseRes).ops) ↔
      ruleComparable ⟨some "L2", none, some (PVal.pint 5), some "forward", some "tg"⟩ ≠
        ruleComparable ⟨some "L", none, some (PVal.pint 5), some "forward", some "tg"⟩) ∧
    (((⟨"update_rule_priority", Payload.noPayload⟩ : Op) ∈
        (⟨[⟨"update_rule", Payload.noPayload⟩], Outcome.ok⟩ : PhaseRes).ops) ↔
      (⟨some "L2", none, some (PVal.pint 5), some "forward", some "tg"⟩ :
          RuleApiAttrs).Priority ≠
        (⟨some "L", none, some (PVal.pint 5), some "forward", some "tg"⟩ :
          RuleApiAttrs).Priority) :=
  c8_field_comparison_amended.2
    ⟨some "L2", none, some (PVal.pint 5), some "forward", some "tg"⟩ none (some "L")
    ⟨"R", some "5", [], some "forward", some "tg"⟩ []
    ⟨some "L", none, some (PVal.pint 5), some "forward", some "tg"⟩
    ⟨[⟨"update_rule", Payload.noPayload⟩], Outcome.ok⟩ rfl rfl

/-- C9: in `update_rule_priority`'s `RuleNotFoundException` branch and
`delete_load_balancer`'s `OperationNotPermittedException` branch the
variable `e` is never bound, so the branch raises a `NameError` instead of
the written classified error; the `NameError` escapes the operation and
the top-level handler converts it into a generic permanent failure with
progress 0. -/
theorem c9_unbound_e_raises_nameerror :
    update_rule_priority_errOutcome AwsErr.subjectNotFound =
      Outcome.internalCrash "NameError" ∧
    (delete_load_balancer_run (.error AwsErr.operationNotPermitted)).1 =
      Outcome.internalCrash "NameError" ∧
    topLevelCatch (Outcome.internalCrash "NameError") = Outcome.permError "NameError" 0 := by
  exact ⟨rfl, rfl, rfl⟩

/-- C10 counterexample: the claim states that whenever the corresponding
PreviousState.props value is non-null, the matching set operation is
enqueued.  With `ip_address_type` and `security_groups` recorded but
`subnets` absent, the subnets check's second disjunct evaluates
`attributes["load_balancer_type"]` — a key the attributes dict does not
have — raising `KeyError` after `set_ip_address_type` was enqueued but
before the security-groups check, so `set_security_groups` is never
enqueued despite its recorded non-null previous value. -/
theorem c10_sg_check_unreachable_on_keyerror :
    lbDivergenceOps (lbAttributes "n" ⟨none, none, none, none, none, none⟩)
        [("ip_address_type", LBVal.vstr "ipv4"), ("security_groups", LBVal.vlist ["sg-1"])] =
      ([⟨"set_ip_address_type", Payload.noPayload⟩], some "KeyError: load_balancer_type") ∧
    List.lookup "security_groups"
      [("ip_address_type", LBVal.vstr "ipv4"), ("security_groups", LBVal.vlist ["sg-1"])] =
      some (LBVal.vlist ["sg-1"]) ∧
    (⟨"set_security_groups", Payload.noPayload⟩ : Op) ∉
      (lbDivergenceOps (lbAttributes "n" ⟨none, none, none, none, none, none⟩)
        [("ip_address_type", LBVal.vstr "ipv4"),
         ("security_groups", LBVal.vlist ["sg-1"])]).1 := by
  exact ⟨rfl, rfl, by decide⟩

/-- C10 (amended): the attributes dict built in the load-balancer handler
has only the capitalized keys, so the divergence checks' lowercase lookups
(`ip_address_type`, `subnets`, `security_groups`) always yield `None`;
consequently whenever PreviousState.props records a non-null value for
`ip_address_type` or `subnets` the matching set operation is enqueued
regardless of the declared or live values, and likewise for
`security_groups` except when `ip_address_type` is recorded while
`subnets` is not — in that corner the subnets check raises `KeyError` on
`attributes["load_balancer_type"]` before the security-groups check. -/
theorem c10_lowercase_lookups_amended :
    (∀ (name : String) (c : LBCdef),
       (lbAttributes name c).lookup "ip_address_type" = none ∧
       (lbAttributes name c).lookup "subnets" = none ∧
       (lbAttributes name c).lookup "security_groups" = none) ∧
    (∀ (name : String) (c : LBCdef) (prev : List (String × LBVal)),
       (prev.lookup "ip_address_type").isSome →
       (⟨"set_ip_address_type", Payload.noPayload⟩ : Op) ∈
         (lbDivergenceOps (lbAttributes name c) prev).1) ∧
    (∀ (name : String) (c : LBCdef) (prev : List (String × LBVal)),
       (prev.lookup "subnets").isSome →
       (⟨"set_subnets", Payload.noPayload⟩ : Op) ∈
         (lbDivergenceOps (lbAttributes name c) prev).1) ∧
    (∀ (name : String) (c : LBCdef) (prev : List (String × LBVal)),
       (prev.lookup "security_groups").isSome →
       ¬((prev.lookup "ip_address_type").isSome ∧ prev.lookup "subnets" = none) →
       (⟨"set_security_groups", Payload.noPayload⟩ : Op) ∈
         (lbDivergenceOps (lbAttributes name c) prev).1) := by
  refine ⟨?_, ?_, ?_, ?_⟩
  · intro name c
    obtain ⟨h1, h2, h3, _⟩ := lbAttributes_lookup_lower name c
    exact ⟨h1, h2, h3⟩
  · intro name c prev h
    obtain ⟨hA, hB, hC, hD⟩ := lbAttributes_lookup_lower name c
    rcases hip : prev.lookup "ip_address_type" with _ | v
    · rw [hip] at h
      simp at h
    · rcases hsub : prev.lookup "subnets" with _ | w
      · simp [lbDivergenceOps, hA, hB, hC, hD, hip, hsub, beq_none_some]
      · simp [lbDivergenceOps, hA, hB, hC, hD, hip, hsub, beq_none_some]
  · intro name c prev h
    obtain ⟨hA, hB, hC, hD⟩ := lbAttributes_lookup_lower name c
    rcases hsub : prev.lookup "subnets" with _ | w
    · rw [hsub] at h
      simp at h
    · simp [lbDivergenceOps, hA, hB, hC, hD, hsub, beq_none_some]
  · intro name c prev h hcorner
    obtain ⟨hA, hB, hC, hD⟩ := lbAttributes_lookup_lower name c
    rcases hsg : prev.lookup "security_groups" with _ | u
    · rw [hsg] at h
      simp at h
    · rcases hsub : prev.lookup "subnets" with _ | w
      · rcases hip : prev.lookup "ip_address_type" with _ | v
        · simp [lbDivergenceOps, hA, hB, hC, hD, hip, hsub, hsg, beq_none_some]
        · exact absurd ⟨by rw [hip]; rfl, hsub⟩ hcorner
      · simp [lbDivergenceOps, hA, hB, hC, hD, hsub, hsg, beq_none_some]

/-- C10 witness: with all three lowercase keys recorded in the previous
props and an entirely default declared config, all three set operations
are enqueued (the lookups on the attributes dict yield `None`). -/
theorem c10_lowercase_lookups_amended_witness :
    ((lbAttributes "n" ⟨none, none, none, none, none, none⟩).lookup "ip_address_type" = none ∧
     (lbAttributes "n" ⟨none, none, none, none, none, none⟩).lookup "subnets" = none ∧
     (lbAttributes "n" ⟨none, none, none, none, none, none⟩).lookup "security_groups" = none) ∧
    (⟨"set_ip_address_type", Payload.noPayload⟩ : Op) ∈
      (lbDivergenceOps (lbAttributes "n" ⟨none, none, none, none, none, none⟩)
        [("ip_address_type", LBVal.vstr "ipv4"), ("subnets", LBVal.vlist ["s-1"]),
         ("security_groups", LBVal.vlist ["sg-1"])]).1 ∧
    (⟨"set_subnets", Payload.noPayload⟩ : Op) ∈
      (lbDivergenceOps (lbAttributes "n" ⟨none, none, none, none, none, none⟩)
        [("ip_address_type", LBVal.vstr "ipv4"), ("subnets", LBVal.vlist ["s-1"]),
         ("security_groups", LBVal.vlist ["sg-1"])]).1 ∧
    (⟨"set_security_groups", Payload.noPayload⟩ : Op) ∈
      (lbDivergenceOps (lbAttributes "n" ⟨none, none, none, none, none, none⟩)
        [("ip_address_type", LBVal.vstr "ipv4"), ("subnets", LBVal.vlist ["s-1"]),
         ("security_groups", LBVal.vlist ["sg-1"])]).1 := by
  refine ⟨c10_lowercase_lookups_amended.1 "n" ⟨none, none, none, none, none, none⟩,
    c10_lowercase_lookups_amended.2.1 "n" ⟨none, none, none, none, none, none⟩
      [("ip_address_type", LBVal.vstr "ipv4"), ("subnets", LBVal.vlist ["s-1"]),
       ("security_groups", LBVal.vlist ["sg-1"])] (by decide),
    c10_lowercase_lookups_amended.2.2.1 "n" ⟨none, none, none, none, none, none⟩
      [("ip_address_type", LBVal.vstr "ipv4"), ("subnets", LBVal.vlist ["s-1"]),
       ("security_groups", LBVal.vlist ["sg-1"])] (by decide),
    c10_lowercase_lookups_amended.2.2.2 "n" ⟨none, none, none, none, none, none⟩
      [("ip_address_type", LBVal.vstr "ipv4"), ("subnets", LBVal.vlist ["s-1"]),
       ("security_groups", LBVal.vlist ["sg-1"])] (by decide) (by decide)⟩

end ALB
